import Mathlib

/-!
Shallow embedding of the WD2793 floppy-disk-controller emulation
(openMSX, `WD2793.cc`) together with the Schedulable sync-point
discipline it relies on, and proofs of the specification's claims
about it.

Conventions of the embedding:
* `byte` registers are `Nat` values kept below 256 by the operations
  themselves (masks use the 8-bit complement `255 - mask`, which agrees
  with the C++ `~mask` truncated to a byte whenever the register is a
  byte).
* `EmuTime` is a `Nat` tick count of the master clock; the `Clock<1000>`
  millisecond clocks used for scheduling advance `msTicks` master ticks
  per millisecond, and `DRQTimer.getTicksTill(now)` is `now - drqTimer`.
* `dataAvailable` is an `Int`, as in the C++ (`int dataAvailable`), so
  that decrementing past zero is representable.
* C++ methods that both return a value and mutate the object become
  functions `WD → ... → α × WD`; `void` methods become `WD → ... → WD`.
* backend exceptions (`MSXException`) become `Option` results of the
  drive-interface fields: `none` models the call throwing.
-/

namespace WD2793Model

/-! ## Status-register bits (from `WD2793.cc`) -/

def BUSY             : Nat := 0x01
def INDEX            : Nat := 0x02
def S_DRQ            : Nat := 0x02
def TRACK00          : Nat := 0x04
def LOST_DATA        : Nat := 0x04
def CRC_ERROR        : Nat := 0x08
def SEEK_ERROR       : Nat := 0x10
def RECORD_NOT_FOUND : Nat := 0x10
def HEAD_LOADED      : Nat := 0x20
def RECORD_TYPE      : Nat := 0x20
def WRITE_PROTECTED  : Nat := 0x40
def NOT_READY        : Nat := 0x80

/-! ## Command-register bits -/

def STEP_SPEED : Nat := 0x03
def V_FLAG     : Nat := 0x04
def E_FLAG     : Nat := 0x04
def H_FLAG     : Nat := 0x08
def T_FLAG     : Nat := 0x10
def M_FLAG     : Nat := 0x10
def N2R_IRQ    : Nat := 0x01
def R2N_IRQ    : Nat := 0x02
def IDX_IRQ    : Nat := 0x04
def IMM_IRQ    : Nat := 0x08

/-- master-clock ticks per millisecond of the `Clock<1000>` delays -/
def msTicks : Nat := 1000

/-- `Disk::RAWTRACK_SIZE`, the raw-track buffer size -/
def RAWTRACK_SIZE : Nat := 6250

/-- Sync point types, from `enum SyncPointType { SCHED_FSM, SCHED_IDX_IRQ }` -/
inductive SyncPointType where
  | SCHED_FSM
  | SCHED_IDX_IRQ
deriving DecidableEq, Repr

/-- `WD2793::FSMState` -/
inductive FSMState where
  | FSM_NONE
  | FSM_SEEK
  | FSM_TYPE2_WAIT_LOAD
  | FSM_TYPE2_LOADED
  | FSM_TYPE2_ROTATED
  | FSM_TYPE3_WAIT_LOAD
  | FSM_TYPE3_LOADED
  | FSM_IDX_IRQ
deriving DecidableEq, Repr

/-- Result of a successful `DiskDrive::read`: the output parameters
`onDiskTrack, onDiskSector, onDiskSide, onDiskSize` plus the sector
data copied into the controller's buffer. -/
structure ReadResult where
  track  : Nat
  sector : Nat
  side   : Nat
  size   : Nat
  data   : Nat → Nat

/-- Result of a successful `DiskDrive::write`: the output parameters
`onDiskTrack, onDiskSector, onDiskSide, onDiskSize`. -/
structure WriteResult where
  track  : Nat
  sector : Nat
  side   : Nat
  size   : Nat

/-- Modelled from the spec: the backend Media collaborator (`DiskDrive`,
whose implementation is not part of the given sources).  Per the spec it
supplies physical geometry facts (track 0, index pulses, write protect,
head load) and performs sector/track reads and writes against the disk
image; a media fault is modelled as an `Option.none` result of the
read/write fields.  The physical head position `pos` is moved by `step`
and `isTrack00` is `pos = 0`. -/
structure Drive where
  pos                : Nat
  diskInserted       : Bool
  writeProtected     : Bool
  headLoadedF        : Bool
  readFn             : Nat → Option ReadResult
  writeFn            : Nat → Option WriteResult
  writeTrackOk       : Bool
  indexPulseF        : Nat → Bool
  indexPulseCountF   : Nat → Nat → Nat
  timeTillIndexPulse : Nat → Nat
  timeTillSector     : Nat → Nat → Nat

/-- `DiskDrive::step(directionIn, time)`: move the head one physical
track (saturating at track 0 on the way out). -/
def Drive.stepHead (d : Drive) (directionIn : Bool) : Drive :=
  { d with pos := if directionIn then d.pos + 1 else d.pos - 1 }

/-- `DiskDrive::isTrack00()` -/
def Drive.isTrack00 (d : Drive) : Bool := d.pos = 0

/-- `DiskDrive::setHeadLoaded(status, time)` -/
def Drive.setHeadLoaded (d : Drive) (b : Bool) : Drive :=
  { d with headLoadedF := b }

/-- The WD2793 controller state: its registers and flags (from
`WD2793.hh`/`WD2793.cc`), the drive it owns, and the pending sync points
of its `Schedulable` base (modelled from the spec: at most one pending
sync point per tag; `violation` records a call of `setSyncPoint` for a
tag that already had a pending sync point, which the spec declares a
contract violation). -/
structure WD where
  syncFSM       : Option Nat
  syncIdx       : Option Nat
  violation     : Bool
  statusReg     : Nat
  commandReg    : Nat
  sectorReg     : Nat
  trackReg      : Nat
  dataReg       : Nat
  directionIn   : Bool
  INTRQ         : Bool
  immediateIRQ  : Bool
  DRQ           : Bool
  transferring  : Bool
  formatting    : Bool
  fsmState      : FSMState
  commandStart  : Nat
  drqTimer      : Nat
  dataBuffer    : Nat → Nat
  dataCurrent   : Nat
  dataAvailable : Int
  drive         : Drive

/-- Modelled from the spec: `Schedulable::setSyncPoint(time, tag)`.
Registering a tag that already has a pending sync point is a contract
violation (spec §4.2); the model records it in `violation`. -/
def setSyncPoint (s : WD) (t : Nat) (tag : SyncPointType) : WD :=
  match tag with
  | .SCHED_FSM =>
      { s with syncFSM := some t, violation := s.violation || s.syncFSM.isSome }
  | .SCHED_IDX_IRQ =>
      { s with syncIdx := some t, violation := s.violation || s.syncIdx.isSome }

/-- Modelled from the spec: `Schedulable::removeSyncPoint(tag)`; no-op
when none is pending. -/
def removeSyncPoint (s : WD) (tag : SyncPointType) : WD :=
  match tag with
  | .SCHED_FSM => { s with syncFSM := none }
  | .SCHED_IDX_IRQ => { s with syncIdx := none }

/-- Modelled from the spec: `Schedulable::pendingSyncPoint(tag)`. -/
def pendingSyncPoint (s : WD) (tag : SyncPointType) : Bool :=
  match tag with
  | .SCHED_FSM => s.syncFSM.isSome
  | .SCHED_IDX_IRQ => s.syncIdx.isSome

/-- `WD2793::setIRQ()` -/
def setIRQ (s : WD) : WD := { s with INTRQ := true }

/-- `WD2793::resetIRQ()` -/
def resetIRQ (s : WD) : WD := { s with INTRQ := false }

/-- `WD2793::setDRQ(drq, time)`: store the flag and restart the DRQ
timer at `time`. -/
def setDRQ (s : WD) (drq : Bool) (t : Nat) : WD :=
  { s with DRQ := drq, drqTimer := t }

/-- `WD2793::endCmd()`: raise the interrupt and clear BUSY. -/
def endCmd (s : WD) : WD :=
  { s with INTRQ := true, statusReg := s.statusReg &&& (255 - BUSY) }

/-- `WD2793::schedule(state, time)`: asserts no FSM sync point is
pending, stores the FSM state and registers the sync point. -/
def schedule (s : WD) (st : FSMState) (t : Nat) : WD :=
  setSyncPoint { s with fsmState := st } t .SCHED_FSM

/-- `WD2793::endType1Cmd()` (the verify sequence is a TODO in the
source and does nothing). -/
def endType1Cmd (s : WD) : WD := endCmd s

/-- `WD2793::step(time)`: optionally update the track register, finish
at track 0 when stepping out, otherwise step the drive and schedule the
next `FSM_SEEK` callback after the selected step delay. -/
def step (s : WD) (t : Nat) : WD :=
  let timePerStep : Nat → Nat := fun i => [6, 12, 20, 30].getD i 0
  let s :=
    if (s.commandReg &&& T_FLAG ≠ 0) ∨ (s.commandReg &&& 0xE0 = 0) then
      if s.directionIn then { s with trackReg := (s.trackReg + 1) % 256 }
      else { s with trackReg := (s.trackReg + 255) % 256 }
    else s
  if (s.directionIn = false) ∧ s.drive.isTrack00 = true then
    endType1Cmd { s with trackReg := 0 }
  else
    let s := { s with drive := s.drive.stepHead s.directionIn }
    schedule s .FSM_SEEK (t + timePerStep (s.commandReg &&& STEP_SPEED) * msTicks)

/-- `WD2793::seek(time)` -/
def seek (s : WD) (t : Nat) : WD :=
  if s.trackReg = s.dataReg then endType1Cmd s
  else step { s with directionIn := decide (s.dataReg > s.trackReg) } t

/-- `WD2793::seekNext(time)` -/
def seekNext (s : WD) (t : Nat) : WD :=
  if s.commandReg &&& 0xE0 = 0 then seek s t
  else endType1Cmd s

/-- `WD2793::startType1Cmd(time)` -/
def startType1Cmd (s : WD) (t : Nat) : WD :=
  let s := { s with statusReg := s.statusReg &&& (255 - (SEEK_ERROR ||| CRC_ERROR)) }
  let s := { s with statusReg := s.statusReg ||| BUSY }
  let s := setDRQ s false t
  let s := { s with drive := s.drive.setHeadLoaded (s.commandReg &&& H_FLAG ≠ 0) }
  let hi := s.commandReg &&& 0xF0
  if hi = 0x00 then
    -- restore
    seek { s with trackReg := 0xFF, dataReg := 0x00 } t
  else if hi = 0x10 then
    seek s t
  else if hi ≤ 0x30 then
    -- step / step (update track register)
    step s t
  else if hi ≤ 0x50 then
    -- step-in / step-in (update track register)
    step { s with directionIn := true } t
  else
    -- step-out / step-out (update track register)
    step { s with directionIn := false } t

/-- `WD2793::tryToReadSector()`: ask the backend for the sector, check
the returned on-disk track against the track register, and start the
transfer; a backend exception clears DRQ and resets all status flags. -/
def tryToReadSector (s : WD) : WD :=
  match s.drive.readFn s.sectorReg with
  | some r =>
      let s := { s with dataBuffer := fun i => if i < r.size then r.data i else s.dataBuffer i }
      if r.track ≠ s.trackReg then
        endCmd { s with statusReg := s.statusReg ||| RECORD_NOT_FOUND }
      else
        { s with dataCurrent := 0, dataAvailable := (r.size : Int),
                 DRQ := false, transferring := true }
  | none =>
      { s with DRQ := false, statusReg := 0 }

/-- `WD2793::type2Rotated()` -/
def type2Rotated (s : WD) : WD :=
  let hi := s.commandReg &&& 0xF0
  if hi ≤ 0x90 then
    -- read sector / read sector (multi)
    tryToReadSector s
  else if hi ≤ 0xB0 then
    -- write sector / write sector (multi)
    { s with dataCurrent := 0, dataAvailable := 512, DRQ := true, transferring := true }
  else s

/-- `WD2793::type2Loaded(time)` -/
def type2Loaded (s : WD) (t : Nat) : WD :=
  if (s.commandReg &&& 0xE0 = 0xA0) ∧ s.drive.writeProtected = true then
    endCmd { s with statusReg := s.statusReg ||| WRITE_PROTECTED }
  else
    schedule s .FSM_TYPE2_ROTATED (s.drive.timeTillSector s.sectorReg t)

/-- `WD2793::type2WaitLoad(time)`: 1 ms head-load delay. -/
def type2WaitLoad (s : WD) (t : Nat) : WD :=
  schedule s .FSM_TYPE2_LOADED (t + 1 * msTicks)

/-- `WD2793::startType2Cmd(time)` -/
def startType2Cmd (s : WD) (t : Nat) : WD :=
  let s := { s with statusReg := s.statusReg &&&
      (255 - (LOST_DATA ||| RECORD_NOT_FOUND ||| RECORD_TYPE ||| WRITE_PROTECTED)) }
  let s := { s with statusReg := s.statusReg ||| BUSY }
  let s := setDRQ s false t
  if s.drive.diskInserted = false then endCmd s
  else
    let s := { s with drive := s.drive.setHeadLoaded true }
    if s.commandReg &&& E_FLAG ≠ 0 then
      schedule s .FSM_TYPE2_WAIT_LOAD (t + 30 * msTicks)
    else
      type2WaitLoad s t

/-- `WD2793::endWriteTrackCmd()`: the `drive.writeTrackData` exception
is caught and ignored in the source, so the continuation is the same
whether the backend call succeeds or not. -/
def endWriteTrackCmd (s : WD) : WD :=
  endCmd { s with dataAvailable := 0, dataCurrent := 0, DRQ := false, formatting := false }

/-- `WD2793::writeTrackCmd(time)` -/
def writeTrackCmd (s : WD) (t : Nat) : WD :=
  if s.drive.writeProtected = true then
    endCmd { s with statusReg := s.statusReg ||| WRITE_PROTECTED }
  else
    let s := { s with formatting := true, dataCurrent := 0,
                      dataBuffer := fun i => if i < RAWTRACK_SIZE then 0 else s.dataBuffer i }
    setDRQ s true t

/-- `WD2793::readAddressCmd()`: not implemented in the source; just
ends the command. -/
def readAddressCmd (s : WD) : WD := endCmd s

/-- `WD2793::readTrackCmd()`: not implemented in the source; just ends
the command. -/
def readTrackCmd (s : WD) : WD := endCmd s

/-- `WD2793::type3Loaded(time)` -/
def type3Loaded (s : WD) (t : Nat) : WD :=
  let s := { s with commandStart := t }
  let hi := s.commandReg &&& 0xF0
  if hi = 0xC0 then readAddressCmd s
  else if hi = 0xE0 then readTrackCmd s
  else if hi = 0xF0 then writeTrackCmd s t
  else s

/-- `WD2793::type3WaitLoad(time)`: 1 ms head-load delay. -/
def type3WaitLoad (s : WD) (t : Nat) : WD :=
  schedule s .FSM_TYPE3_LOADED (t + 1 * msTicks)

/-- `WD2793::startType3Cmd(time)` -/
def startType3Cmd (s : WD) (t : Nat) : WD :=
  let s := { s with statusReg := s.statusReg &&&
      (255 - (LOST_DATA ||| RECORD_NOT_FOUND ||| RECORD_TYPE)) }
  let s := { s with statusReg := s.statusReg ||| BUSY }
  let s := setDRQ s false t
  let s := { s with commandStart := t }
  if s.drive.diskInserted = false then endCmd s
  else
    let s := { s with drive := s.drive.setHeadLoaded true }
    if s.commandReg &&& E_FLAG ≠ 0 then
      schedule s .FSM_TYPE3_WAIT_LOAD (t + 30 * msTicks)
    else
      type3WaitLoad s t

/-- `WD2793::startType4Cmd(time)` (force interrupt).  Note the source
calls `setSyncPoint(…, SCHED_IDX_IRQ)` in the index-pulse branch without
first removing an already pending `SCHED_IDX_IRQ` sync point. -/
def startType4Cmd (s : WD) (t : Nat) : WD :=
  let flags := s.commandReg &&& 0x0F
  let s := if flags = 0x00 then { s with immediateIRQ := false } else s
  let s :=
    if (flags &&& IDX_IRQ ≠ 0) ∧ s.drive.diskInserted = true then
      setSyncPoint s (s.drive.timeTillIndexPulse t) .SCHED_IDX_IRQ
    else
      removeSyncPoint s .SCHED_IDX_IRQ
  let s := if flags &&& IMM_IRQ ≠ 0 then { s with immediateIRQ := true } else s
  let s := setDRQ s false t
  { s with statusReg := s.statusReg &&& (255 - BUSY) }

/-- `WD2793::setCommandReg(value, time)`: cancel the pending FSM sync
point, store the command, clear the interrupt, stop any transfer, and
dispatch on the high nibble (`0x00`–`0x70` type I, `0x80`–`0xB0` type
II, `0xC0`/`0xE0`/`0xF0` type III, `0xD0` type IV). -/
def setCommandReg (s : WD) (value : Nat) (t : Nat) : WD :=
  let s := removeSyncPoint s .SCHED_FSM
  let s := { s with commandReg := value, INTRQ := false, transferring := false }
  let hi := value &&& 0xF0
  if hi ≤ 0x70 then startType1Cmd s t
  else if hi ≤ 0xB0 then startType2Cmd s t
  else if hi = 0xD0 then startType4Cmd s t
  else startType3Cmd s t

/-- `WD2793::executeUntil(time, userData)` -/
def executeUntil (s : WD) (t : Nat) (tag : SyncPointType) : WD :=
  match tag with
  | .SCHED_IDX_IRQ => { s with INTRQ := true }
  | .SCHED_FSM =>
    let st := s.fsmState
    let s := { s with fsmState := .FSM_NONE }
    match st with
    | .FSM_SEEK =>
        if s.commandReg &&& 0x80 = 0 then seekNext s t else s
    | .FSM_TYPE2_WAIT_LOAD =>
        if s.commandReg &&& 0xC0 = 0x80 then type2WaitLoad s t else s
    | .FSM_TYPE2_LOADED =>
        if s.commandReg &&& 0xC0 = 0x80 then type2Loaded s t else s
    | .FSM_TYPE2_ROTATED =>
        if s.commandReg &&& 0xC0 = 0x80 then type2Rotated s else s
    | .FSM_TYPE3_WAIT_LOAD =>
        if (s.commandReg &&& 0xC0 = 0xC0) ∧ (s.commandReg &&& 0xF0 ≠ 0xD0) then
          type3WaitLoad s t
        else s
    | .FSM_TYPE3_LOADED =>
        if (s.commandReg &&& 0xC0 = 0xC0) ∧ (s.commandReg &&& 0xF0 ≠ 0xD0) then
          type3Loaded s t
        else s
    | _ => s  -- UNREACHABLE in the source

/-- Modelled from the spec: `Scheduler::advanceTo(now)` restricted to
this single Schedulable.  It fires, in increasing fire-time order, every
sync point pending on entry whose fire time is `≤ now`; a sync point
registered during the flush only becomes eligible on a later
`advanceTo` (spec §4.2). -/
def advanceTo (s : WD) (now : Nat) : WD :=
  let dueF := match s.syncFSM with
    | some tf => if tf ≤ now then some tf else none
    | none => none
  let dueI := match s.syncIdx with
    | some ti => if ti ≤ now then some ti else none
    | none => none
  match dueF, dueI with
  | none, none => s
  | some tf, none => executeUntil { s with syncFSM := none } tf .SCHED_FSM
  | none, some ti => executeUntil { s with syncIdx := none } ti .SCHED_IDX_IRQ
  | some tf, some ti =>
      if tf ≤ ti then
        let s := executeUntil { s with syncFSM := none } tf .SCHED_FSM
        executeUntil { s with syncIdx := none } ti .SCHED_IDX_IRQ
      else
        let s := executeUntil { s with syncIdx := none } ti .SCHED_IDX_IRQ
        executeUntil { s with syncFSM := none } tf .SCHED_FSM

/-- The driving loop repeatedly advancing virtual time to the next
pending FSM sync point, until none is pending (bounded by `fuel`). -/
def runFSM : Nat → WD → WD
  | 0, s => s
  | fuel + 1, s =>
      match s.syncFSM with
      | none => s
      | some tf => runFSM fuel (advanceTo s tf)

/-- `WD2793::getDTRQ(time)`: lazily reconstruct the data-request line
from the DRQ timer (read/write sector) or the index-pulse count (write
track). -/
def getDTRQ (s : WD) (t : Nat) : Bool × WD :=
  if (s.commandReg &&& 0xC0 = 0x80) ∧ (s.statusReg &&& BUSY ≠ 0) then
    -- read/write sector cmd busy
    let s :=
      if s.transferring = true ∧ 15 ≤ t - s.drqTimer then { s with DRQ := true } else s
    (s.DRQ, s)
  else if (s.commandReg &&& 0xF0 = 0xF0) ∧ (s.statusReg &&& BUSY ≠ 0) then
    -- WRITE TRACK cmd busy
    match s.drive.indexPulseCountF s.commandStart t with
    | 0 => (s.DRQ, s)
    | 1 =>
        let s := if 16 ≤ t - s.drqTimer then { s with DRQ := true } else s
        (s.DRQ, s)
    | _ =>
        let s := endWriteTrackCmd s
        (s.DRQ, s)
  else (s.DRQ, s)

/-- `WD2793::peekDTRQ(time)`: returns the stored DRQ flag without
recomputing it (the source marks this with a TODO). -/
def peekDTRQ (s : WD) (t : Nat) : Bool × WD :=
  (s.DRQ, s)

/-- `WD2793::getIRQ(time)` -/
def getIRQ (s : WD) (t : Nat) : Bool × WD :=
  (s.INTRQ || s.immediateIRQ, s)

/-- `WD2793::peekIRQ(time)` -/
def peekIRQ (s : WD) (t : Nat) : Bool × WD :=
  getIRQ s t

/-- `WD2793::getStatusReg(time)`: recompute the time/drive-derived
status bits, then clear the interrupt request. -/
def getStatusReg (s : WD) (t : Nat) : Nat × WD :=
  let s :=
    if (s.commandReg &&& 0x80 = 0) ∨ (s.commandReg &&& 0xF0 = 0xD0) then
      -- Type I or type IV command
      let st := s.statusReg &&& (255 - (INDEX ||| TRACK00 ||| HEAD_LOADED ||| WRITE_PROTECTED))
      let st := if s.drive.indexPulseF t then st ||| INDEX else st
      let st := if s.drive.isTrack00 then st ||| TRACK00 else st
      let st := if s.drive.headLoadedF then st ||| HEAD_LOADED else st
      let st := if s.drive.writeProtected then st ||| WRITE_PROTECTED else st
      { s with statusReg := st }
    else
      -- Not type I command so bit 1 should be DRQ
      let (d, s) := getDTRQ s t
      if d then { s with statusReg := s.statusReg ||| S_DRQ }
      else { s with statusReg := s.statusReg &&& (255 - S_DRQ) }
  let s :=
    if s.drive.diskInserted then { s with statusReg := s.statusReg &&& (255 - NOT_READY) }
    else { s with statusReg := s.statusReg ||| NOT_READY }
  let s := { s with INTRQ := false }
  (s.statusReg, s)

/-- `WD2793::peekStatusReg(time)`: delegates to `getStatusReg`. -/
def peekStatusReg (s : WD) (t : Nat) : Nat × WD :=
  getStatusReg s t

/-- `WD2793::setTrackReg(value, time)` -/
def setTrackReg (s : WD) (value : Nat) (t : Nat) : WD :=
  { s with trackReg := value }

/-- `WD2793::getTrackReg(time)` -/
def getTrackReg (s : WD) (t : Nat) : Nat × WD :=
  (s.trackReg, s)

/-- `WD2793::peekTrackReg(time)`: delegates to `getTrackReg`. -/
def peekTrackReg (s : WD) (t : Nat) : Nat × WD :=
  getTrackReg s t

/-- `WD2793::setSectorReg(value, time)` -/
def setSectorReg (s : WD) (value : Nat) (t : Nat) : WD :=
  { s with sectorReg := value }

/-- `WD2793::getSectorReg(time)` -/
def getSectorReg (s : WD) (t : Nat) : Nat × WD :=
  (s.sectorReg, s)

/-- `WD2793::peekSectorReg(time)`: delegates to `getSectorReg`. -/
def peekSectorReg (s : WD) (t : Nat) : Nat × WD :=
  getSectorReg s t

/-- `WD2793::setDataReg(value, time)` -/
def setDataReg (s : WD) (value : Nat) (t : Nat) : WD :=
  let s := { s with dataReg := value }
  if (s.commandReg &&& 0xE0 = 0xA0) ∧ (s.statusReg &&& BUSY ≠ 0) then
    -- WRITE SECTOR
    let s := { s with dataBuffer := fun i => if i = s.dataCurrent then value else s.dataBuffer i }
    let s := { s with dataCurrent := s.dataCurrent + 1,
                      dataAvailable := s.dataAvailable - 1 }
    let s := setDRQ s false t
    if s.dataAvailable = 0 then
      let s := { s with transferring := false, dataCurrent := 0 }
      match s.drive.writeFn s.sectorReg with
      | some r =>
          let s := { s with dataAvailable := (r.size : Int) }
          if r.track ≠ s.trackReg then
            endCmd { s with statusReg := s.statusReg ||| RECORD_NOT_FOUND }
          else
            -- both the multi and the non-multi branch end the command
            endCmd s
      | none =>
          -- Backend couldn't write data
          endCmd { s with statusReg := s.statusReg ||| RECORD_NOT_FOUND }
    else s
  else if (s.commandReg &&& 0xF0 = 0xF0) ∧ (s.statusReg &&& BUSY ≠ 0) then
    -- WRITE TRACK
    if s.formatting = false then s
    else
      let s := setDRQ s false t
      match s.drive.indexPulseCountF s.commandStart t with
      | 0 => s
      | 1 =>
          let s := { s with dataBuffer := fun i => if i = s.dataCurrent then value else s.dataBuffer i }
          { s with dataCurrent := s.dataCurrent + 1 }
      | _ => endWriteTrackCmd s
  else s

/-- `WD2793::getDataReg(time)` -/
def getDataReg (s : WD) (t : Nat) : Nat × WD :=
  if (s.commandReg &&& 0xE0 = 0x80) ∧ (s.statusReg &&& BUSY ≠ 0) then
    -- READ SECTOR
    let s := { s with dataReg := s.dataBuffer s.dataCurrent }
    let s := { s with dataCurrent := s.dataCurrent + 1,
                      dataAvailable := s.dataAvailable - 1 }
    let s := setDRQ s false t
    if s.dataAvailable = 0 then
      let s := { s with transferring := false }
      if s.commandReg &&& M_FLAG = 0 then
        let s := endCmd s
        (s.dataReg, s)
      else
        let s := tryToReadSector { s with sectorReg := (s.sectorReg + 1) % 256 }
        (s.dataReg, s)
    else (s.dataReg, s)
  else (s.dataReg, s)

/-- `WD2793::peekDataReg(time)` -/
def peekDataReg (s : WD) (t : Nat) : Nat × WD :=
  if (s.commandReg &&& 0xE0 = 0x80) ∧ (s.statusReg &&& BUSY ≠ 0) then
    (s.dataBuffer s.dataCurrent, s)
  else
    (s.dataReg, s)

/-- `WD2793::reset(time)` -/
def reset (s : WD) (t : Nat) : WD :=
  let s := removeSyncPoint s .SCHED_FSM
  let s := removeSyncPoint s .SCHED_IDX_IRQ
  let s := { s with fsmState := .FSM_NONE,
                    statusReg := 0, trackReg := 0, dataReg := 0, directionIn := true }
  let s := setDRQ s false t
  let s := resetIRQ s
  let s := { s with immediateIRQ := false, formatting := false, transferring := false }
  -- execute Restore command
  let s := { s with sectorReg := 0x01 }
  setCommandReg s 0x03 t

/-- Issue `n` consecutive data-register reads at time `t`, collecting
the returned bytes in order. -/
def readN : Nat → WD → Nat → List Nat × WD
  | 0, s, _ => ([], s)
  | n + 1, s, t =>
      let p := getDataReg s t
      let q := readN n p.2 t
      (p.1 :: q.1, q.2)

/-- Issue one data-register write per value of `vs`, at time `t`. -/
def writeN (vs : List Nat) (s : WD) (t : Nat) : WD :=
  vs.foldl (fun s v => setDataReg s v t) s

/-! ## Concrete fixtures used by the witnesses and counterexamples -/

/-- A concrete drive with a disk inserted: the head at physical track 5,
every sector readable as 512 bytes `i % 256` on track 0, writes
succeeding on track 0, the next index pulse always 1000 ticks away and
the target sector under the head 200 ticks after the query. -/
def testDrive : Drive :=
  { pos := 5
    diskInserted := true
    writeProtected := false
    headLoadedF := false
    readFn := fun sec => some
      { track := 0, sector := sec, side := 0, size := 512, data := fun i => i % 256 }
    writeFn := fun sec => some
      { track := 0, sector := sec, side := 0, size := 512 }
    writeTrackOk := true
    indexPulseF := fun _ => false
    indexPulseCountF := fun _ _ => 0
    timeTillIndexPulse := fun t => t + 1000
    timeTillSector := fun _ t => t + 200 }

/-- An idle controller state over `testDrive`: no pending sync points,
cleared registers, no command in flight. -/
def idleWD : WD :=
  { syncFSM := none
    syncIdx := none
    violation := false
    statusReg := 0
    commandReg := 0
    sectorReg := 1
    trackReg := 0
    dataReg := 0
    directionIn := true
    INTRQ := false
    immediateIRQ := false
    DRQ := false
    transferring := false
    formatting := false
    fsmState := .FSM_NONE
    commandStart := 0
    drqTimer := 0
    dataBuffer := fun _ => 0
    dataCurrent := 0
    dataAvailable := 0
    drive := testDrive }

/-! ## Generic bit lemmas used by several proofs -/

theorem land_land (a b c : Nat) : a &&& b &&& c = a &&& (b &&& c) := by
  apply Nat.eq_of_testBit_eq
  intro i
  simp only [Nat.testBit_land, Bool.and_assoc]

theorem lor_land_self (a b : Nat) : (a ||| b) &&& b = b := by
  apply Nat.eq_of_testBit_eq
  intro i
  rw [Nat.testBit_land, Nat.testBit_lor]
  cases Nat.testBit a i <;> cases Nat.testBit b i <;> rfl

theorem land_zero (a : Nat) : a &&& 0 = 0 := by
  apply Nat.eq_of_testBit_eq
  intro i
  simp only [Nat.testBit_land, Nat.zero_testBit, Bool.and_false]

/-- clearing BUSY (bit 0) with the byte complement mask really clears it -/
theorem busy_cleared (z : Nat) : (z &&& 254) &&& 1 = 0 := by
  rw [land_land]
  norm_num

/-- setting BUSY (bit 0) really sets it -/
theorem busy_set (z : Nat) : (z ||| 1) &&& 1 = 1 :=
  lor_land_self z 1

/-- RECORD-NOT-FOUND (bit 4) survives the BUSY clear -/
theorem rnf_survives (z : Nat) : ((z ||| 16) &&& 254) &&& 16 = 16 := by
  rw [land_land]
  have h : (254 : Nat) &&& 16 = 16 := by decide
  rw [h, lor_land_self]

/-! ## C10 -/

/-- C10: every call of `getStatusReg` — and hence also of
`peekStatusReg`, which delegates to it — ends by clearing the pending
interrupt request: the INTRQ line is false afterwards, so any status
inspection, a debugger peek included, acknowledges an outstanding
interrupt. -/
theorem c10_status_read_clears_interrupt (s : WD) (t : Nat) :
    (getStatusReg s t).2.INTRQ = false ∧ (peekStatusReg s t).2.INTRQ = false :=
  ⟨rfl, rfl⟩

/-! ## C2 -/

/-- An idle controller with an outstanding interrupt and the NOT_READY
status bit set (while a disk is in fact inserted). -/
def irqWD : WD := { idleWD with INTRQ := true, statusReg := 0x80 }

/-- C2 counterexample: `peekStatusReg` is not mutation-free.  On a state
with INTRQ pending and the NOT_READY status bit stale, a single
`peekStatusReg` clears the NOT_READY status bit (a status-register
mutation) and clears the pending INTRQ line, refuting the claim that
every peek variant mutates no register or status bit. -/
theorem c2_counterexample :
    (irqWD.statusReg = 0x80 ∧ irqWD.INTRQ = true) ∧
    (peekStatusReg irqWD 0).2.statusReg = 0 ∧
    (peekStatusReg irqWD 0).2.INTRQ = false := by
  decide

/-- C2 amended: the peek variants `peekDataReg`, `peekTrackReg`,
`peekSectorReg`, `peekDTRQ` and `peekIRQ` mutate nothing, and
`peekDataReg`, `peekTrackReg`, `peekSectorReg` and `peekIRQ` return the
same value an immediately following mutating read at the same `now`
returns; `peekStatusReg`, however, delegates to `getStatusReg` and so
returns the same value but also performs its mutations (derived status
bits rewritten, INTRQ cleared), and `peekDTRQ` returns the stored DRQ
flag rather than the value `getDTRQ` derives. -/
theorem c2_peek_discipline (s : WD) (t : Nat) :
    (peekDataReg s t).2 = s ∧
    (peekTrackReg s t).2 = s ∧
    (peekSectorReg s t).2 = s ∧
    (peekDTRQ s t).2 = s ∧
    (peekIRQ s t).2 = s ∧
    (peekDataReg s t).1 = (getDataReg s t).1 ∧
    (peekTrackReg s t).1 = (getTrackReg s t).1 ∧
    (peekSectorReg s t).1 = (getSectorReg s t).1 ∧
    (peekIRQ s t).1 = (getIRQ s t).1 ∧
    (peekStatusReg s t).1 = (getStatusReg s t).1 := by
  refine ⟨?_, rfl, rfl, rfl, rfl, ?_, rfl, rfl, rfl, rfl⟩
  · unfold peekDataReg
    split <;> rfl
  · unfold peekDataReg getDataReg
    by_cases h : (s.commandReg &&& 0xE0 = 0x80) ∧ (s.statusReg &&& BUSY ≠ 0)
    · rw [if_pos h, if_pos h]
      simp only [setDRQ, endCmd, tryToReadSector]
      split
      · split
        · rfl
        · rcases hr : s.drive.readFn ((s.sectorReg + 1) % 256) with _ | r
          · simp [hr]
          · simp only [hr]
            split <;> rfl
      · rfl
    · rw [if_neg h, if_neg h]

/-! ## C3 -/

/-- A controller state mid read-sector transfer: command `0x80` busy,
transferring, stored DRQ flag still false, DRQ timer restarted at
tick 0. -/
def drqWD : WD :=
  { idleWD with commandReg := 0x80, statusReg := 0x01, transferring := true }

/-- C3 (bug witness): at 15 ticks after the DRQ timer restart, the
mutating query `getDTRQ` derives DRQ = true from the elapsed time while
`peekDTRQ` still returns the stale stored flag false — the peek variant
does not return the identical derived value (the source itself marks
`peekDTRQ` with "TODO can be improved"). -/
theorem c3_peekDTRQ_stale :
    (getDTRQ drqWD 15).1 = true ∧ (peekDTRQ drqWD 15).1 = false := by
  decide

/-! ## C4 -/

/-- C4 (bug witness): issuing the force-interrupt command `0xD4`
(interrupt on next index pulse) twice, the second time before the first
scheduled index-pulse sync point has fired, makes `startType4Cmd` call
`setSyncPoint` for tag SCHED_IDX_IRQ while a sync point with that same
tag is still pending — without canceling it first — which the spec
declares a contract violation.  The first command registers the sync
point legally (no violation, point pending for tick 1010); the second
command re-registers it while pending. -/
theorem c4_double_idx_registration :
    (setCommandReg idleWD 0xD4 10).violation = false ∧
    (setCommandReg idleWD 0xD4 10).syncIdx = some 1010 ∧
    (setCommandReg (setCommandReg idleWD 0xD4 10) 0xD4 20).violation = true := by
  decide

/-! ## C5 -/

/-- A controller about to execute the rotational-position callback of a
read-sector command whose backend read throws. -/
def readFailWD : WD :=
  { idleWD with
    drive := { testDrive with readFn := fun _ => none },
    commandReg := 0x80, statusReg := 1,
    fsmState := .FSM_TYPE2_ROTATED, syncFSM := some 100 }

/-- C5 counterexample: when the backend `drive.read` throws, the
controller does not set any status-register error bit and does not
raise the interrupt: `tryToReadSector`'s catch clause wipes the whole
status register to 0 and leaves INTRQ untouched (false here), refuting
the claim that every media fault sets an error bit and raises the
interrupt. -/
theorem c5_counterexample :
    (advanceTo readFailWD 100).statusReg = 0 ∧
    (advanceTo readFailWD 100).INTRQ = false := by
  decide

/-- C5 amended: every backend media fault is caught at the call site and
never propagated, but the translation differs per call site: a failing
`drive.write` at the end of a sector write sets the RECORD_NOT_FOUND
error bit, clears BUSY and raises the interrupt; a failing `drive.read`
instead wipes the whole status register to 0 (clearing BUSY but setting
no error bit) and leaves the interrupt line untouched; a failing
`drive.writeTrackData` is ignored and the write-track command ends
normally (interrupt raised, BUSY cleared, no error bit). -/
theorem c5_fault_translation (s1 s2 s3 : WD) (v t : Nat)
    (h1 : s1.drive.readFn s1.sectorReg = none)
    (h2c : s2.commandReg &&& 0xE0 = 0xA0)
    (h2b : s2.statusReg &&& BUSY ≠ 0)
    (h2d : s2.dataAvailable = 1)
    (h2w : s2.drive.writeFn s2.sectorReg = none) :
    ((tryToReadSector s1).statusReg = 0 ∧ (tryToReadSector s1).INTRQ = s1.INTRQ) ∧
    ((setDataReg s2 v t).statusReg &&& RECORD_NOT_FOUND ≠ 0 ∧
     (setDataReg s2 v t).statusReg &&& BUSY = 0 ∧
     (setDataReg s2 v t).INTRQ = true) ∧
    ((endWriteTrackCmd s3).INTRQ = true ∧
     (endWriteTrackCmd s3).statusReg = s3.statusReg &&& (255 - BUSY)) := by
  refine ⟨?_, ?_, ?_⟩
  · unfold tryToReadSector
    rw [h1]
    exact ⟨rfl, rfl⟩
  · unfold setDataReg
    rw [if_pos ⟨h2c, h2b⟩]
    simp only [setDRQ, h2d]
    rw [if_pos (by norm_num : (1 : Int) - 1 = 0)]
    rw [h2w]
    simp only [endCmd, RECORD_NOT_FOUND, BUSY]
    refine ⟨?_, busy_cleared _, trivial⟩
    rw [rnf_survives]
    norm_num
  · exact ⟨rfl, rfl⟩

/-- A controller state mid sector write whose backend write throws, one
byte before the end of the transfer. -/
def writeFailWD : WD :=
  { idleWD with
    drive := { testDrive with writeFn := fun _ => none },
    commandReg := 0xA0, statusReg := 1,
    transferring := true, dataAvailable := 1, dataCurrent := 511 }

theorem c5_fault_translation_witness :
    (readFailWD.drive.readFn readFailWD.sectorReg = none) ∧
    (writeFailWD.commandReg &&& 0xE0 = 0xA0) ∧
    (writeFailWD.statusReg &&& BUSY ≠ 0) ∧
    (writeFailWD.dataAvailable = 1) ∧
    (writeFailWD.drive.writeFn writeFailWD.sectorReg = none) ∧
    (((tryToReadSector readFailWD).statusReg = 0 ∧
      (tryToReadSector readFailWD).INTRQ = readFailWD.INTRQ) ∧
     ((setDataReg writeFailWD 9 3).statusReg &&& RECORD_NOT_FOUND ≠ 0 ∧
      (setDataReg writeFailWD 9 3).statusReg &&& BUSY = 0 ∧
      (setDataReg writeFailWD 9 3).INTRQ = true) ∧
     ((endWriteTrackCmd idleWD).INTRQ = true ∧
      (endWriteTrackCmd idleWD).statusReg = idleWD.statusReg &&& (255 - BUSY))) := by
  refine ⟨rfl, by decide, by decide, by decide, rfl, ?_⟩
  exact c5_fault_translation readFailWD writeFailWD idleWD 9 3
    rfl (by decide) (by decide) (by decide) rfl

/-! ## C9 -/

/-- C9 counterexample: a data-register read issued while a read-sector
command is busy but the transfer has not started yet (the head-load
delay is still pending, `transferring = false`, `dataAvailable = 0`)
still decrements `dataAvailable`, driving it to −1 < 0: the claimed
invariant `dataAvailable ≥ 0` does not hold for every sequence of
data-register accesses. -/
theorem c9_counterexample :
    (setCommandReg idleWD 0x80 0).statusReg &&& BUSY ≠ 0 ∧
    (setCommandReg idleWD 0x80 0).transferring = false ∧
    (getDataReg (setCommandReg idleWD 0x80 0) 5).2.dataAvailable < 0 := by
  decide

/-- C9 amended: while a transfer is active (`transferring = true`,
positive `dataAvailable`), a data-register access of the matching kind
decrements `dataAvailable` exactly once and never drives it below zero:
a non-final access (more than one byte left) leaves exactly one less
byte, and after any access `dataAvailable` is non-negative and is
positive whenever a transfer is still active.  (Without the
active-transfer premise the bound fails: reading the data register while
a read-sector command is merely busy drives `dataAvailable` to −1, see
the counterexample.)  The backend is assumed to honour its 512-byte
sector size, as the source asserts (`assert(onDiskSize == 512)`). -/
theorem c9_transfer_invariant (s : WD) (t v : Nat)
    (hsize : ∀ sec r, s.drive.readFn sec = some r → r.size = 512)
    (htrans : s.transferring = true) (hpos : 0 < s.dataAvailable) :
    ((s.commandReg &&& 0xE0 = 0x80) → (s.statusReg &&& BUSY ≠ 0) →
       0 ≤ (getDataReg s t).2.dataAvailable ∧
       ((getDataReg s t).2.transferring = true → 0 < (getDataReg s t).2.dataAvailable) ∧
       (1 < s.dataAvailable → (getDataReg s t).2.dataAvailable = s.dataAvailable - 1)) ∧
    ((s.commandReg &&& 0xE0 = 0xA0) → (s.statusReg &&& BUSY ≠ 0) →
       0 ≤ (setDataReg s v t).dataAvailable ∧
       ((setDataReg s v t).transferring = true → 0 < (setDataReg s v t).dataAvailable) ∧
       (1 < s.dataAvailable → (setDataReg s v t).dataAvailable = s.dataAvailable - 1)) := by
  constructor
  · intro hc hb
    unfold getDataReg
    rw [if_pos ⟨hc, hb⟩]
    simp only [setDRQ, endCmd, tryToReadSector]
    by_cases hda : s.dataAvailable = 1
    · rw [if_pos (by rw [hda]; norm_num : s.dataAvailable - 1 = (0 : Int))]
      split
      · simp [hda]
      · rcases hr : s.drive.readFn ((s.sectorReg + 1) % 256) with _ | r
        · simp [hr, hda]
        · have h512 := hsize _ r hr
          simp only [hr]
          split
          · simp [hda]
          · simp [h512, hda]
    · have hgt : 1 < s.dataAvailable := by omega
      rw [if_neg (by omega : ¬ s.dataAvailable - 1 = (0 : Int))]
      simp only [htrans]
      refine ⟨by omega, fun _ => by omega, fun _ => trivial⟩
  · intro hc hb
    unfold setDataReg
    rw [if_pos ⟨hc, hb⟩]
    simp only [setDRQ, endCmd]
    by_cases hda : s.dataAvailable = 1
    · rw [if_pos (by rw [hda]; norm_num : s.dataAvailable - 1 = (0 : Int))]
      rcases hw : s.drive.writeFn s.sectorReg with _ | r
      · simp [hw, hda]
      · simp only [hw]
        split
        · exact ⟨Int.natCast_nonneg r.size, by simp, fun h => by omega⟩
        · exact ⟨Int.natCast_nonneg r.size, by simp, fun h => by omega⟩
    · have hgt : 1 < s.dataAvailable := by omega
      rw [if_neg (by omega : ¬ s.dataAvailable - 1 = (0 : Int))]
      simp only [htrans]
      refine ⟨by omega, fun _ => by omega, fun _ => trivial⟩

end WD2793Model

namespace WD2793Model

/-- A controller state mid read-sector transfer over `testDrive`, with
the full 512-byte sector still to serve. -/
def readingWD : WD :=
  { idleWD with
    commandReg := 0x80, statusReg := 1,
    transferring := true, dataAvailable := 512, dataCurrent := 0 }

theorem c9_transfer_invariant_witness :
    (∀ sec r, readingWD.drive.readFn sec = some r → r.size = 512) ∧
    readingWD.transferring = true ∧ 0 < readingWD.dataAvailable ∧
    (((readingWD.commandReg &&& 0xE0 = 0x80) → (readingWD.statusReg &&& BUSY ≠ 0) →
        0 ≤ (getDataReg readingWD 3).2.dataAvailable ∧
        ((getDataReg readingWD 3).2.transferring = true →
          0 < (getDataReg readingWD 3).2.dataAvailable) ∧
        (1 < readingWD.dataAvailable →
          (getDataReg readingWD 3).2.dataAvailable = readingWD.dataAvailable - 1)) ∧
     ((readingWD.commandReg &&& 0xE0 = 0xA0) → (readingWD.statusReg &&& BUSY ≠ 0) →
        0 ≤ (setDataReg readingWD 7 3).dataAvailable ∧
        ((setDataReg readingWD 7 3).transferring = true →
          0 < (setDataReg readingWD 7 3).dataAvailable) ∧
        (1 < readingWD.dataAvailable →
          (setDataReg readingWD 7 3).dataAvailable = readingWD.dataAvailable - 1))) := by
  have hsize : ∀ sec r, readingWD.drive.readFn sec = some r → r.size = 512 := by
    intro sec r h
    simp only [readingWD, idleWD, testDrive, Option.some.injEq] at h
    rw [← h]
  exact ⟨hsize, rfl, by decide, c9_transfer_invariant readingWD 3 7 hsize rfl (by decide)⟩

/-! ## C8 -/

/-- Dispatching the force-interrupt command `0xD8` (immediate-interrupt
flag): the FSM sync point is removed and not re-registered, the index
sync point is removed (IDX flag clear), the immediate-interrupt flag is
armed, the transfer stops, DRQ drops and BUSY is cleared. -/
theorem setCommandReg_D8 (s : WD) (t : Nat) :
    setCommandReg s 0xD8 t =
      { s with syncFSM := none, syncIdx := none, commandReg := 0xD8,
               INTRQ := false, transferring := false, immediateIRQ := true,
               DRQ := false, drqTimer := t,
               statusReg := s.statusReg &&& (255 - BUSY) } := by
  unfold setCommandReg
  rw [show ((0xD8 : Nat) &&& 0xF0) = 0xD0 from by decide]
  rw [if_neg (by norm_num), if_neg (by norm_num), if_pos rfl]
  unfold startType4Cmd setDRQ removeSyncPoint setSyncPoint
  dsimp only
  simp only [show ((0xD8 : Nat) &&& 0x0F) = 8 from by decide, IDX_IRQ, IMM_IRQ,
             show ((8 : Nat) &&& 4) = 0 from by decide,
             show ((8 : Nat) &&& 8) = 8 from by decide]
  norm_num

/-- C8: a Type IV force-interrupt command never sets BUSY — for every
command byte with high nibble `0xD` the status register's BUSY bit is
clear after dispatch — and the particular force-interrupt `0xD8`
(immediate-interrupt flag) issued while a Type I command is mid-step
(its FSM sync point pending, BUSY set) cancels the in-flight command:
afterwards no FSM sync point and no index sync point is pending, the
immediate-interrupt flag is armed, and BUSY is clear. -/
theorem c8_force_interrupt (s : WD) (t v tf : Nat)
    (hv : v &&& 0xF0 = 0xD0)
    (hbusy : s.statusReg &&& BUSY ≠ 0)
    (hmid : s.syncFSM = some tf) :
    ((setCommandReg s v t).statusReg &&& BUSY = 0) ∧
    ((setCommandReg s 0xD8 t).syncFSM = none ∧
     (setCommandReg s 0xD8 t).syncIdx = none ∧
     (setCommandReg s 0xD8 t).immediateIRQ = true ∧
     (setCommandReg s 0xD8 t).statusReg &&& BUSY = 0) := by
  constructor
  · unfold setCommandReg
    rw [hv]
    rw [if_neg (by norm_num), if_neg (by norm_num), if_pos rfl]
    unfold startType4Cmd setDRQ
    dsimp only
    split <;> split <;> split <;> exact busy_cleared _
  · rw [setCommandReg_D8]
    exact ⟨rfl, rfl, rfl, busy_cleared _⟩

/-- A controller mid-seek: a Type I step command busy with its FSM sync
point pending. -/
def midSeekWD : WD :=
  { idleWD with
    commandReg := 0x03, statusReg := 1, syncFSM := some 60,
    fsmState := .FSM_SEEK, dataReg := 0, directionIn := false }

theorem c8_force_interrupt_witness :
    ((0xD8 : Nat) &&& 0xF0 = 0xD0) ∧
    (midSeekWD.statusReg &&& BUSY ≠ 0) ∧
    (midSeekWD.syncFSM = some 60) ∧
    (((setCommandReg midSeekWD 0xD8 5).statusReg &&& BUSY = 0) ∧
     ((setCommandReg midSeekWD 0xD8 5).syncFSM = none ∧
      (setCommandReg midSeekWD 0xD8 5).syncIdx = none ∧
      (setCommandReg midSeekWD 0xD8 5).immediateIRQ = true ∧
      (setCommandReg midSeekWD 0xD8 5).statusReg &&& BUSY = 0)) :=
  ⟨by decide, by decide, rfl,
   c8_force_interrupt midSeekWD 5 0xD8 60 (by decide) (by decide) rfl⟩

end WD2793Model

namespace WD2793Model

/-! ## C6 -/

/-- A non-final data-register write during an active sector-write
command (more than one byte still expected): the byte goes into the
buffer, the cursor advances, `dataAvailable` drops by one and DRQ is
cleared; nothing else changes. -/
theorem setDataReg_mid (s : WD) (v t : Nat)
    (hc : s.commandReg &&& 0xE0 = 0xA0) (hb : s.statusReg &&& BUSY ≠ 0)
    (hda : s.dataAvailable - 1 ≠ 0) :
    setDataReg s v t =
      { s with dataReg := v,
               dataBuffer := fun i => if i = s.dataCurrent then v else s.dataBuffer i,
               dataCurrent := s.dataCurrent + 1,
               dataAvailable := s.dataAvailable - 1,
               DRQ := false, drqTimer := t } := by
  unfold setDataReg setDRQ
  rw [if_pos ⟨hc, hb⟩]
  dsimp only
  rw [if_neg hda]

/-- The final data-register write of a sector-write command whose
backend write reports a different on-disk track: RECORD_NOT_FOUND is
set, BUSY cleared, the interrupt raised, the transfer over. -/
theorem setDataReg_last_mismatch (s : WD) (v t : Nat) (r : WriteResult)
    (hc : s.commandReg &&& 0xE0 = 0xA0) (hb : s.statusReg &&& BUSY ≠ 0)
    (hda : s.dataAvailable = 1)
    (hw : s.drive.writeFn s.sectorReg = some r) (htr : r.track ≠ s.trackReg) :
    (setDataReg s v t).statusReg = (s.statusReg ||| RECORD_NOT_FOUND) &&& (255 - BUSY) ∧
    (setDataReg s v t).INTRQ = true ∧
    (setDataReg s v t).transferring = false := by
  unfold setDataReg setDRQ endCmd
  rw [if_pos ⟨hc, hb⟩]
  dsimp only
  rw [if_pos (by rw [hda]; norm_num : s.dataAvailable - 1 = (0 : Int))]
  rw [hw]
  dsimp only
  rw [if_pos htr]
  exact ⟨rfl, rfl, rfl⟩

/-- Serving a sector-write transfer to its end when the backend reports
a mismatching on-disk track: for any value sequence whose length equals
the remaining `dataAvailable`, the command ends with RECORD_NOT_FOUND
set, BUSY cleared and the interrupt raised. -/
theorem writeN_mismatch (vs : List Nat) :
    ∀ (s : WD) (t : Nat) (r : WriteResult),
      s.commandReg &&& 0xE0 = 0xA0 →
      s.statusReg &&& BUSY ≠ 0 →
      s.dataAvailable = (vs.length : Int) →
      vs ≠ [] →
      s.drive.writeFn s.sectorReg = some r →
      r.track ≠ s.trackReg →
      (writeN vs s t).statusReg = (s.statusReg ||| RECORD_NOT_FOUND) &&& (255 - BUSY) ∧
      (writeN vs s t).INTRQ = true ∧
      (writeN vs s t).transferring = false := by
  induction vs with
  | nil =>
      intro s t r _ _ _ hne _ _
      exact absurd rfl hne
  | cons v rest ih =>
      intro s t r hc hb hda _ hw htr
      rcases rest with _ | ⟨v2, rest2⟩
      · have h1 : s.dataAvailable = 1 := by simpa using hda
        exact setDataReg_last_mismatch s v t r hc hb h1 hw htr
      · have hlen : s.dataAvailable = (rest2.length : Int) + 2 := by
          simp only [List.length_cons] at hda
          push_cast at hda
          omega
        have hmid := setDataReg_mid s v t hc hb (by omega)
        have hstep : writeN (v :: v2 :: rest2) s t = writeN (v2 :: rest2) (setDataReg s v t) t := rfl
        rw [hstep, hmid]
        exact ih _ t r hc hb
          (by simp only [List.length_cons]; push_cast; omega)
          (by simp) hw htr

/-- C6: a sector-write command in which, after the 512th data-register
write, the backend write call reports an on-disk track different from
the track register, sets the RECORD_NOT_FOUND status bit (0x10) and
ends the command — BUSY cleared, interrupt raised — without completing
the transfer (`transferring` is false and no further bytes are
expected). -/
theorem c6_write_track_mismatch (vs : List Nat) (s : WD) (t : Nat) (r : WriteResult)
    (hlen : vs.length = 512)
    (hc : s.commandReg &&& 0xE0 = 0xA0)
    (hb : s.statusReg &&& BUSY ≠ 0)
    (hda : s.dataAvailable = 512)
    (hw : s.drive.writeFn s.sectorReg = some r)
    (htr : r.track ≠ s.trackReg) :
    (writeN vs s t).statusReg &&& RECORD_NOT_FOUND ≠ 0 ∧
    (writeN vs s t).statusReg &&& BUSY = 0 ∧
    (writeN vs s t).INTRQ = true ∧
    (writeN vs s t).transferring = false := by
  obtain ⟨h1, h2, h3⟩ := writeN_mismatch vs s t r hc hb
    (by rw [hlen, hda]; norm_num) (by intro h; rw [h] at hlen; simp at hlen) hw htr
  refine ⟨?_, ?_, h2, h3⟩
  · rw [h1]
    show ((s.statusReg ||| 16) &&& 254) &&& 16 ≠ 0
    rw [rnf_survives]
    norm_num
  · rw [h1]
    exact busy_cleared _

/-- A controller mid sector-write transfer over `testDrive` (which
reports every write on disk track 0) with track register 3. -/
def writeMismatchWD : WD :=
  { idleWD with
    commandReg := 0xA0, statusReg := 1, trackReg := 3,
    transferring := true, dataAvailable := 512, dataCurrent := 0 }

theorem c6_write_track_mismatch_witness :
    ((List.replicate 512 0xAB).length = 512) ∧
    (writeMismatchWD.commandReg &&& 0xE0 = 0xA0) ∧
    (writeMismatchWD.statusReg &&& BUSY ≠ 0) ∧
    (writeMismatchWD.dataAvailable = 512) ∧
    (writeMismatchWD.drive.writeFn writeMismatchWD.sectorReg =
      some { track := 0, sector := 1, side := 0, size := 512 }) ∧
    ((0 : Nat) ≠ writeMismatchWD.trackReg) ∧
    ((writeN (List.replicate 512 0xAB) writeMismatchWD 7).statusReg &&& RECORD_NOT_FOUND ≠ 0 ∧
     (writeN (List.replicate 512 0xAB) writeMismatchWD 7).statusReg &&& BUSY = 0 ∧
     (writeN (List.replicate 512 0xAB) writeMismatchWD 7).INTRQ = true ∧
     (writeN (List.replicate 512 0xAB) writeMismatchWD 7).transferring = false) :=
  ⟨List.length_replicate 512 0xAB, by decide, by decide, by decide, rfl, by decide,
   c6_write_track_mismatch (List.replicate 512 0xAB) writeMismatchWD 7
     { track := 0, sector := 1, side := 0, size := 512 }
     (List.length_replicate 512 0xAB) (by decide) (by decide) (by decide) rfl (by decide)⟩

end WD2793Model

namespace WD2793Model

/-! ## C1 -/

/-- A non-final data-register read during an active sector read (more
than one byte left): returns the current buffer byte, advances the
cursor, decrements `dataAvailable` and clears DRQ. -/
theorem getDataReg_mid (s : WD) (t : Nat)
    (hc : s.commandReg &&& 0xE0 = 0x80) (hb : s.statusReg &&& BUSY ≠ 0)
    (hda : s.dataAvailable - 1 ≠ 0) :
    getDataReg s t =
      (s.dataBuffer s.dataCurrent,
       { s with dataReg := s.dataBuffer s.dataCurrent,
                dataCurrent := s.dataCurrent + 1,
                dataAvailable := s.dataAvailable - 1,
                DRQ := false, drqTimer := t }) := by
  unfold getDataReg setDRQ
  rw [if_pos ⟨hc, hb⟩]
  dsimp only
  rw [if_neg hda]

/-- The final data-register read of a non-multi sector read: returns
the last buffer byte, stops the transfer, clears BUSY and raises the
interrupt. -/
theorem getDataReg_last (s : WD) (t : Nat)
    (hc : s.commandReg &&& 0xE0 = 0x80) (hm : s.commandReg &&& M_FLAG = 0)
    (hb : s.statusReg &&& BUSY ≠ 0) (hda : s.dataAvailable = 1) :
    getDataReg s t =
      (s.dataBuffer s.dataCurrent,
       { s with dataReg := s.dataBuffer s.dataCurrent,
                dataCurrent := s.dataCurrent + 1,
                dataAvailable := s.dataAvailable - 1,
                DRQ := false, drqTimer := t,
                transferring := false,
                INTRQ := true,
                statusReg := s.statusReg &&& (255 - BUSY) }) := by
  unfold getDataReg setDRQ endCmd
  rw [if_pos ⟨hc, hb⟩]
  dsimp only
  rw [if_pos (by rw [hda]; norm_num : s.dataAvailable - 1 = (0 : Int)), if_pos hm]

/-- Serving a read-sector transfer to its end (non-multi): `n + 1`
consecutive data-register reads with `dataAvailable = n + 1` return the
buffer bytes from the cursor on, in order, and afterwards BUSY is
cleared and the interrupt raised. -/
theorem readN_zero (s : WD) (t : Nat) : readN 0 s t = ([], s) := rfl

theorem readN_succ (n : Nat) (s : WD) (t : Nat) :
    readN (n + 1) s t =
      ((getDataReg s t).1 :: (readN n (getDataReg s t).2 t).1,
       (readN n (getDataReg s t).2 t).2) := rfl

theorem readN_transfer (n : Nat) :
    ∀ (s : WD) (t : Nat),
      s.commandReg &&& 0xE0 = 0x80 →
      s.commandReg &&& M_FLAG = 0 →
      s.statusReg &&& BUSY ≠ 0 →
      s.dataAvailable = (n : Int) + 1 →
      (readN (n + 1) s t).1
          = (List.range (n + 1)).map (fun i => s.dataBuffer (s.dataCurrent + i)) ∧
      (readN (n + 1) s t).2.statusReg = s.statusReg &&& (255 - BUSY) ∧
      (readN (n + 1) s t).2.INTRQ = true := by
  induction n with
  | zero =>
      intro s t hc hm hb hda
      rw [readN_succ]
      rw [getDataReg_last s t hc hm hb (by rw [hda]; norm_num)]
      rw [readN_zero]
      dsimp only
      refine ⟨?_, rfl, rfl⟩
      rw [show List.range 1 = [0] from rfl]
      exact rfl
  | succ m ih =>
      intro s t hc hm hb hda
      rw [readN_succ]
      rw [getDataReg_mid s t hc hb (by rw [hda]; push_cast; omega)]
      dsimp only
      obtain ⟨ih1, ih2, ih3⟩ :=
        ih { s with dataReg := s.dataBuffer s.dataCurrent,
                    dataCurrent := s.dataCurrent + 1,
                    dataAvailable := s.dataAvailable - 1,
                    DRQ := false, drqTimer := t } t hc hm hb
          (by dsimp only; rw [hda]; push_cast; ring)
      refine ⟨?_, ih2, ih3⟩
      rw [ih1]
      dsimp only
      conv_rhs => rw [List.range_succ_eq_map, List.map_cons, List.map_map]
      refine congrArg₂ List.cons rfl ?_
      refine List.map_congr_left ?_
      intro a _
      simp only [Function.comp]
      rw [Nat.add_assoc, Nat.add_comm 1 a]

/-- Dispatching the read-sector command `0x80` (single sector, no
head-settle E flag) with a disk inserted: BUSY set, the type-II status
bits cleared, the head loaded, DRQ dropped, and the 1 ms head-load
callback (`FSM_TYPE2_LOADED`) scheduled. -/
theorem setCommandReg_readSector (s : WD) (t0 : Nat)
    (hIns : s.drive.diskInserted = true) :
    setCommandReg s 0x80 t0 =
      { s with syncFSM := some (t0 + 1 * msTicks),
               commandReg := 0x80, INTRQ := false, transferring := false,
               statusReg := (s.statusReg &&&
                 (255 - (LOST_DATA ||| RECORD_NOT_FOUND ||| RECORD_TYPE ||| WRITE_PROTECTED)))
                 ||| BUSY,
               DRQ := false, drqTimer := t0,
               drive := { s.drive with headLoadedF := true },
               fsmState := .FSM_TYPE2_LOADED } := by
  unfold setCommandReg
  rw [show ((0x80 : Nat) &&& 0xF0) = 0x80 from by decide]
  rw [if_neg (by norm_num), if_pos (by norm_num)]
  unfold startType2Cmd setDRQ type2WaitLoad schedule setSyncPoint removeSyncPoint
    Drive.setHeadLoaded
  dsimp only
  rw [if_neg (show ¬(s.drive.diskInserted = false) from by rw [hIns]; simp)]
  rw [if_neg (show ¬((0x80 : Nat) &&& E_FLAG ≠ 0) from by decide)]
  simp only [Bool.or_false, Option.isSome_none]

/-- `advanceTo` on a state whose only due sync point is the FSM one:
fire it. -/
theorem advanceTo_fsm (s : WD) (tf now : Nat) (hF : s.syncFSM = some tf)
    (hI : s.syncIdx = none) (hle : tf ≤ now) :
    advanceTo s now = executeUntil { s with syncFSM := none } tf .SCHED_FSM := by
  unfold advanceTo
  rw [hF, hI]
  dsimp only
  rw [if_pos hle]

end WD2793Model

namespace WD2793Model

/-- C1: a full single-sector (non-multi) read: writing the read-sector
opcode `0x80`, letting the scheduled head-load delay and the drive's
rotational-position delay elapse via `advanceTo`, then issuing exactly
512 data-register reads returns the backend's 512 sector bytes in
order, and after the 512th read BUSY is cleared and an interrupt is
pending. -/
theorem c1_single_sector_read (s : WD) (t0 tr : Nat) (r : ReadResult)
    (hIns : s.drive.diskInserted = true)
    (hIdx : s.syncIdx = none)
    (hRead : s.drive.readFn s.sectorReg = some r)
    (hTrack : r.track = s.trackReg)
    (hSize : r.size = 512) :
    (readN 512 (advanceTo (advanceTo (setCommandReg s 0x80 t0) (t0 + 1 * msTicks))
        (s.drive.timeTillSector s.sectorReg (t0 + 1 * msTicks))) tr).1
      = (List.range 512).map r.data ∧
    (readN 512 (advanceTo (advanceTo (setCommandReg s 0x80 t0) (t0 + 1 * msTicks))
        (s.drive.timeTillSector s.sectorReg (t0 + 1 * msTicks))) tr).2.statusReg &&& BUSY = 0 ∧
    (readN 512 (advanceTo (advanceTo (setCommandReg s 0x80 t0) (t0 + 1 * msTicks))
        (s.drive.timeTillSector s.sectorReg (t0 + 1 * msTicks))) tr).2.INTRQ = true := by
  rw [setCommandReg_readSector s t0 hIns]
  have h2 : advanceTo
      { s with syncFSM := some (t0 + 1 * msTicks),
               commandReg := 0x80, INTRQ := false, transferring := false,
               statusReg := (s.statusReg &&&
                 (255 - (LOST_DATA ||| RECORD_NOT_FOUND ||| RECORD_TYPE ||| WRITE_PROTECTED)))
                 ||| BUSY,
               DRQ := false, drqTimer := t0,
               drive := { s.drive with headLoadedF := true },
               fsmState := .FSM_TYPE2_LOADED } (t0 + 1 * msTicks)
      = { s with syncFSM := some (s.drive.timeTillSector s.sectorReg (t0 + 1 * msTicks)),
                 commandReg := 0x80, INTRQ := false, transferring := false,
                 statusReg := (s.statusReg &&&
                   (255 - (LOST_DATA ||| RECORD_NOT_FOUND ||| RECORD_TYPE ||| WRITE_PROTECTED)))
                   ||| BUSY,
                 DRQ := false, drqTimer := t0,
                 drive := { s.drive with headLoadedF := true },
                 fsmState := .FSM_TYPE2_ROTATED } := by
    refine (advanceTo_fsm _ _ _ rfl ?_ le_rfl).trans ?_
    · exact hIdx
    unfold executeUntil
    dsimp only
    rw [show ((0x80 : Nat) &&& 0xC0) = 0x80 from by decide]
    rw [if_pos rfl]
    unfold type2Loaded
    dsimp only
    rw [show ((0x80 : Nat) &&& 0xE0) = 0x80 from by decide]
    rw [if_neg (fun h => absurd h.1 (by norm_num))]
    unfold schedule setSyncPoint
    dsimp only
    simp only [Bool.or_false, Option.isSome_none]
  rw [h2]
  have h3 : advanceTo
      { s with syncFSM := some (s.drive.timeTillSector s.sectorReg (t0 + 1 * msTicks)),
               commandReg := 0x80, INTRQ := false, transferring := false,
               statusReg := (s.statusReg &&&
                 (255 - (LOST_DATA ||| RECORD_NOT_FOUND ||| RECORD_TYPE ||| WRITE_PROTECTED)))
                 ||| BUSY,
               DRQ := false, drqTimer := t0,
               drive := { s.drive with headLoadedF := true },
               fsmState := .FSM_TYPE2_ROTATED }
        (s.drive.timeTillSector s.sectorReg (t0 + 1 * msTicks))
      = { s with syncFSM := none,
                 commandReg := 0x80, INTRQ := false, transferring := true,
                 statusReg := (s.statusReg &&&
                   (255 - (LOST_DATA ||| RECORD_NOT_FOUND ||| RECORD_TYPE ||| WRITE_PROTECTED)))
                   ||| BUSY,
                 DRQ := false, drqTimer := t0,
                 drive := { s.drive with headLoadedF := true },
                 fsmState := .FSM_NONE,
                 dataBuffer := fun i => if i < r.size then r.data i else s.dataBuffer i,
                 dataCurrent := 0, dataAvailable := (r.size : Int) } := by
    refine (advanceTo_fsm _ _ _ rfl ?_ le_rfl).trans ?_
    · exact hIdx
    unfold executeUntil
    dsimp only
    rw [show ((0x80 : Nat) &&& 0xC0) = 0x80 from by decide]
    rw [if_pos rfl]
    unfold type2Rotated
    dsimp only
    rw [show ((0x80 : Nat) &&& 0xF0) = 0x80 from by decide]
    rw [if_pos (by norm_num : (0x80 : Nat) ≤ 0x90)]
    unfold tryToReadSector
    dsimp only
    rw [hRead]
    dsimp only
    rw [if_neg (not_not_intro hTrack)]
  rw [h3]
  obtain ⟨p1, p2, p3⟩ := readN_transfer 511
    { s with syncFSM := none,
             commandReg := 0x80, INTRQ := false, transferring := true,
             statusReg := (s.statusReg &&&
               (255 - (LOST_DATA ||| RECORD_NOT_FOUND ||| RECORD_TYPE ||| WRITE_PROTECTED)))
               ||| BUSY,
             DRQ := false, drqTimer := t0,
             drive := { s.drive with headLoadedF := true },
             fsmState := .FSM_NONE,
             dataBuffer := fun i => if i < r.size then r.data i else s.dataBuffer i,
             dataCurrent := 0, dataAvailable := (r.size : Int) } tr
    (by dsimp only; decide) (by dsimp only; decide)
    (by dsimp only; simp only [BUSY]; rw [busy_set]; norm_num)
    (by dsimp only; rw [hSize]; norm_num)
  rw [show (512 : Nat) = 511 + 1 from rfl]
  refine ⟨?_, ?_, p3⟩
  · rw [p1]
    refine List.map_congr_left ?_
    intro a ha
    dsimp only
    rw [Nat.zero_add, if_pos (by rw [hSize]; exact List.mem_range.mp ha)]
  · rw [p2]
    exact busy_cleared _

/-- The concrete sector returned by `testDrive` for any sector id. -/
def testReadResult : ReadResult :=
  { track := 0, sector := 1, side := 0, size := 512, data := fun i => i % 256 }

theorem c1_single_sector_read_witness :
    (idleWD.drive.diskInserted = true) ∧
    (idleWD.syncIdx = none) ∧
    (idleWD.drive.readFn idleWD.sectorReg = some testReadResult) ∧
    (testReadResult.track = idleWD.trackReg) ∧
    (testReadResult.size = 512) ∧
    ((readN 512 (advanceTo (advanceTo (setCommandReg idleWD 0x80 0) (0 + 1 * msTicks))
        (idleWD.drive.timeTillSector idleWD.sectorReg (0 + 1 * msTicks))) 5000).1
      = (List.range 512).map testReadResult.data ∧
     (readN 512 (advanceTo (advanceTo (setCommandReg idleWD 0x80 0) (0 + 1 * msTicks))
        (idleWD.drive.timeTillSector idleWD.sectorReg (0 + 1 * msTicks))) 5000).2.statusReg
        &&& BUSY = 0 ∧
     (readN 512 (advanceTo (advanceTo (setCommandReg idleWD 0x80 0) (0 + 1 * msTicks))
        (idleWD.drive.timeTillSector idleWD.sectorReg (0 + 1 * msTicks))) 5000).2.INTRQ = true) :=
  ⟨rfl, rfl, rfl, rfl, rfl,
   c1_single_sector_read idleWD 0 5000 testReadResult rfl rfl rfl rfl rfl⟩

end WD2793Model

namespace WD2793Model

/-! ## C7 -/

/-- `runFSM` stops as soon as no FSM sync point is pending. -/
theorem runFSM_none (fuel : Nat) (s : WD) (h : s.syncFSM = none) :
    runFSM fuel s = s := by
  cases fuel with
  | zero => rfl
  | succ f => simp only [runFSM, h]

/-- One iteration of the restore seek loop, at the scheduled `FSM_SEEK`
callback: if the track register already equals the (zeroed) data
register the command ends; else, the track register is decremented and,
if the drive reports track 0, it is overwritten with 0 and the command
ends; otherwise the drive steps out once and the next callback is
scheduled after the 30 ms step delay. -/
theorem restore_iteration (s : WD) (tN : Nat)
    (hc : s.commandReg = 0x03) (hd : s.dataReg = 0)
    (hI : s.syncIdx = none) (hfsm : s.fsmState = .FSM_SEEK)
    (hF : s.syncFSM = some tN) :
    advanceTo s tN =
      if s.trackReg = 0 then
        { s with syncFSM := none, fsmState := .FSM_NONE, INTRQ := true,
                 statusReg := s.statusReg &&& (255 - BUSY) }
      else if s.drive.pos = 0 then
        { s with syncFSM := none, fsmState := .FSM_NONE, INTRQ := true,
                 directionIn := false, trackReg := 0,
                 statusReg := s.statusReg &&& (255 - BUSY) }
      else
        { s with syncFSM := some (tN + 30 * msTicks), fsmState := .FSM_SEEK,
                 directionIn := false,
                 trackReg := (s.trackReg + 255) % 256,
                 drive := { s.drive with pos := s.drive.pos - 1 } } := by
  rw [advanceTo_fsm s tN tN hF hI le_rfl]
  unfold executeUntil
  dsimp only
  rw [hfsm]
  dsimp only
  rw [hc]
  rw [if_pos (by decide : (0x03 : Nat) &&& 0x80 = 0)]
  unfold seekNext
  dsimp only
  rw [if_pos (by decide : (0x03 : Nat) &&& 0xE0 = 0)]
  unfold seek
  dsimp only
  rw [hd]
  by_cases hr : s.trackReg = 0
  · rw [if_pos hr, if_pos hr]
    unfold endType1Cmd endCmd
    dsimp only
  · rw [if_neg hr, if_neg hr]
    rw [show decide (0 > s.trackReg) = false from
      decide_eq_false (Nat.not_lt_zero s.trackReg)]
    unfold step
    dsimp only
    rw [if_pos (Or.inr (by decide : (0x03 : Nat) &&& 0xE0 = 0))]
    rw [if_neg (by simp : ¬(false = true))]
    unfold Drive.isTrack00
    dsimp only
    by_cases hp : s.drive.pos = 0
    · rw [hp]
      rw [if_pos (⟨rfl, rfl⟩ : (false = false) ∧ (decide ((0 : Nat) = 0) = true))]
      rw [if_pos (rfl : (0 : Nat) = 0)]
      unfold endType1Cmd endCmd
      dsimp only
    · rw [show decide (s.drive.pos = 0) = false from decide_eq_false hp]
      rw [if_neg (fun h => by simpa using h.2)]
      rw [if_neg hp]
      unfold Drive.stepHead schedule setSyncPoint
      dsimp only
      rw [if_neg (by simp : ¬(false = true))]
      rw [show ([6, 12, 20, 30].getD ((0x03 : Nat) &&& STEP_SPEED) 0) = 30 from by decide]
      simp only [Bool.or_false, Option.isSome_none]

/-- Running the scheduled seek callbacks of an in-flight restore
command to completion: with enough fuel (more than the drive's physical
track position), the loop ends with track register 0, BUSY cleared, the
interrupt raised and no pending FSM sync point. -/
theorem restore_loop (p : Nat) :
    ∀ (fuel : Nat) (s : WD) (tN : Nat),
      p < fuel →
      s.drive.pos = p →
      s.commandReg = 0x03 →
      s.dataReg = 0 →
      s.syncFSM = some tN →
      s.syncIdx = none →
      s.fsmState = .FSM_SEEK →
      (runFSM fuel s).trackReg = 0 ∧
      (runFSM fuel s).statusReg = s.statusReg &&& (255 - BUSY) ∧
      (runFSM fuel s).INTRQ = true ∧
      (runFSM fuel s).syncFSM = none := by
  induction p with
  | zero =>
      intro fuel s tN hfuel hpos hc hd hF hI hfsm
      cases fuel with
      | zero => omega
      | succ f =>
          simp only [runFSM, hF]
          rw [restore_iteration s tN hc hd hI hfsm hF]
          by_cases hr : s.trackReg = 0
          · rw [if_pos hr]
            rw [runFSM_none f _ rfl]
            exact ⟨hr, rfl, rfl, rfl⟩
          · rw [if_neg hr, if_pos hpos]
            rw [runFSM_none f _ rfl]
            exact ⟨rfl, rfl, rfl, rfl⟩
  | succ q ih =>
      intro fuel s tN hfuel hpos hc hd hF hI hfsm
      cases fuel with
      | zero => omega
      | succ f =>
          simp only [runFSM, hF]
          rw [restore_iteration s tN hc hd hI hfsm hF]
          by_cases hr : s.trackReg = 0
          · rw [if_pos hr]
            rw [runFSM_none f _ rfl]
            exact ⟨hr, rfl, rfl, rfl⟩
          · rw [if_neg hr, if_neg (by omega : ¬ s.drive.pos = 0)]
            exact ih f
              { s with syncFSM := some (tN + 30 * msTicks), fsmState := .FSM_SEEK,
                       directionIn := false,
                       trackReg := (s.trackReg + 255) % 256,
                       drive := { s.drive with pos := s.drive.pos - 1 } }
              (tN + 30 * msTicks)
              (by omega) (by dsimp only; omega) hc hd rfl hI rfl

end WD2793Model

namespace WD2793Model

/-- Dispatching the Restore command `0x03` when the drive already sits
on physical track 0: the track register is forced to 0xFF, decremented
once, then overwritten with 0 as track zero is detected, and the
command ends immediately (BUSY cleared, interrupt raised). -/
theorem setCommandReg_restore_done (s : WD) (t : Nat) (hp : s.drive.pos = 0) :
    setCommandReg s 0x03 t =
      { s with syncFSM := none,
               commandReg := 0x03, INTRQ := true, transferring := false,
               statusReg := ((s.statusReg &&& (255 - (SEEK_ERROR ||| CRC_ERROR))) ||| BUSY)
                 &&& (255 - BUSY),
               DRQ := false, drqTimer := t,
               drive := { s.drive with headLoadedF := false },
               trackReg := 0, dataReg := 0, directionIn := false } := by
  unfold setCommandReg startType1Cmd setDRQ removeSyncPoint Drive.setHeadLoaded
  dsimp only
  rw [if_pos (by decide : (0x03 : Nat) &&& 0xF0 ≤ 0x70)]
  rw [if_pos (by decide : ((0x03 : Nat) &&& 0xF0) = 0x00)]
  unfold seek
  dsimp only
  rw [if_neg (by decide : ¬((0xFF : Nat) = 0x00))]
  unfold step
  dsimp only
  rw [if_pos (Or.inr (by decide : (0x03 : Nat) &&& 0xE0 = 0))]
  rw [show decide ((0x00 : Nat) > 0xFF) = false from decide_eq_false (by norm_num)]
  rw [if_neg (by simp : ¬(false = true))]
  unfold Drive.isTrack00
  dsimp only
  rw [hp]
  rw [if_pos (⟨rfl, rfl⟩ : (false = false) ∧ (decide ((0 : Nat) = 0) = true))]
  unfold endType1Cmd endCmd
  dsimp only
  rw [show decide ((0x03 : Nat) &&& H_FLAG ≠ 0) = false from by decide]

/-- Dispatching the Restore command `0x03` when the drive is not on
track 0: the track register is forced to 0xFF and decremented once, the
drive steps out once, and the next seek callback is scheduled 30 ms
ahead. -/
theorem setCommandReg_restore_step (s : WD) (t : Nat) (hp : ¬ s.drive.pos = 0) :
    setCommandReg s 0x03 t =
      { s with syncFSM := some (t + 30 * msTicks),
               commandReg := 0x03, INTRQ := false, transferring := false,
               statusReg := (s.statusReg &&& (255 - (SEEK_ERROR ||| CRC_ERROR))) ||| BUSY,
               DRQ := false, drqTimer := t,
               drive := { s.drive with headLoadedF := false, pos := s.drive.pos - 1 },
               fsmState := .FSM_SEEK,
               trackReg := 254, dataReg := 0, directionIn := false } := by
  unfold setCommandReg startType1Cmd setDRQ removeSyncPoint Drive.setHeadLoaded
  dsimp only
  rw [if_pos (by decide : (0x03 : Nat) &&& 0xF0 ≤ 0x70)]
  rw [if_pos (by decide : ((0x03 : Nat) &&& 0xF0) = 0x00)]
  unfold seek
  dsimp only
  rw [if_neg (by decide : ¬((0xFF : Nat) = 0x00))]
  unfold step
  dsimp only
  rw [if_pos (Or.inr (by decide : (0x03 : Nat) &&& 0xE0 = 0))]
  rw [show decide ((0x00 : Nat) > 0xFF) = false from decide_eq_false (by norm_num)]
  rw [if_neg (by simp : ¬(false = true))]
  unfold Drive.isTrack00
  dsimp only
  rw [show decide (s.drive.pos = 0) = false from decide_eq_false hp]
  rw [if_neg (fun h => by simpa using h.2)]
  unfold Drive.stepHead schedule setSyncPoint
  dsimp only
  rw [if_neg (by simp : ¬(false = true))]
  rw [show ([6, 12, 20, 30].getD ((0x03 : Nat) &&& STEP_SPEED) 0) = 30 from by decide]
  rw [show ((0xFF : Nat) + 255) % 256 = 254 from by norm_num]
  rw [show decide ((0x03 : Nat) &&& H_FLAG ≠ 0) = false from by decide]
  simp only [Bool.or_false, Option.isSome_none]

/-- C7: after a Restore command (opcode `0x03`) completes — the track
register forced to 0xFF and the head stepped outward once per scheduled
callback until the drive reports track zero — the track register equals
0 and the BUSY status bit is cleared.  `s.drive.pos + 2` firings of the
scheduled callbacks suffice for any starting state. -/
theorem c7_restore (s : WD) (t : Nat) (hIdx : s.syncIdx = none) :
    (runFSM (s.drive.pos + 2) (setCommandReg s 0x03 t)).trackReg = 0 ∧
    (runFSM (s.drive.pos + 2) (setCommandReg s 0x03 t)).statusReg &&& BUSY = 0 := by
  by_cases hp : s.drive.pos = 0
  · rw [setCommandReg_restore_done s t hp]
    rw [runFSM_none _ _ rfl]
    exact ⟨rfl, busy_cleared _⟩
  · rw [setCommandReg_restore_step s t hp]
    obtain ⟨r1, r2, r3, r4⟩ := restore_loop (s.drive.pos - 1) (s.drive.pos + 2)
      { s with syncFSM := some (t + 30 * msTicks),
               commandReg := 0x03, INTRQ := false, transferring := false,
               statusReg := (s.statusReg &&& (255 - (SEEK_ERROR ||| CRC_ERROR))) ||| BUSY,
               DRQ := false, drqTimer := t,
               drive := { s.drive with headLoadedF := false, pos := s.drive.pos - 1 },
               fsmState := .FSM_SEEK,
               trackReg := 254, dataReg := 0, directionIn := false }
      (t + 30 * msTicks)
      (by omega) rfl rfl rfl rfl hIdx rfl
    refine ⟨r1, ?_⟩
    rw [r2]
    exact busy_cleared _

theorem c7_restore_witness :
    (idleWD.syncIdx = none) ∧
    ((runFSM (idleWD.drive.pos + 2) (setCommandReg idleWD 0x03 0)).trackReg = 0 ∧
     (runFSM (idleWD.drive.pos + 2) (setCommandReg idleWD 0x03 0)).statusReg &&& BUSY = 0) :=
  ⟨rfl, c7_restore idleWD 0 rfl⟩

end WD2793Model
